import Mathlib

/-!
Shallow embedding of `src/libfwupdplugin/fu-context.c` (fwupd).

Pure Lean translations of the FuContext data model and the operations the
verified claims are about: context flags, battery setters, HWID/SMBIOS
accessor guards, `load_hwinfo`, `load_quirks`, the udev subsystem→plugin
registry, ESP volume discovery/caching, the default-ESP scoring algorithm
and boot-asset (ESP file) extraction.

External collaborators (GLib, FuVolume, FuHwids, FuSmbios, the PE parser,
udisks) are modelled as explicit data/environment records whose fields
record exactly the answers those collaborators would give; the control
flow of each embedded function follows the C source line by line.
-/

namespace Fwupd

/-- FwupdError domain codes used in fu-context.c (from libfwupd's
`FwupdError`; only the codes this file needs). -/
inductive FwupdErrorCode where
  | internal
  | notFound
  | invalidFile
  | notSupported
  | io
  | brokenSystem
deriving DecidableEq, Repr

/-- A GError in the FWUPD_ERROR domain: code plus message. -/
structure FuError where
  code : FwupdErrorCode
  message : String
deriving DecidableEq, Repr

/-- Context flags (from `FuContextFlags`; the numeric bit values are
irrelevant to the embedded behaviour, only flag identity is used). -/
inductive FuContextFlag where
  | loadedHwinfo          -- FU_CONTEXT_FLAG_LOADED_HWINFO
  | inhibitVolumeMount    -- FU_CONTEXT_FLAG_INHIBIT_VOLUME_MOUNT
  | ignoreEfivarsFreeSpace
  | fdeBitlocker
  | fdeSnapd
deriving DecidableEq, Repr

/-- Modelled from the spec: `FWUPD_BATTERY_LEVEL_INVALID`, the sentinel
"invalid" battery value (defined in libfwupd, which is not under src/;
the spec describes battery level as "0-100 or a sentinel invalid value"). -/
def FWUPD_BATTERY_LEVEL_INVALID : Nat := 101

/-- `G_MAXUINT` for a 32-bit guint. -/
def G_MAXUINT : Nat := 4294967295

/-! ### String primitives

Character-list implementations of the C string helpers used below
(`g_str_has_prefix`, `g_str_has_suffix`, `g_utf8_strdown`, `g_strcmp0`,
`g_strsplit(_, _, 2)`, `g_path_get_basename`, `g_string_replace`); all are
structurally recursive so concrete instances evaluate inside the kernel. -/

/-- ASCII lowercase of one character (the filenames compared by the code
under verification are ASCII, where `g_utf8_strdown` agrees with this). -/
def charDown (c : Char) : Char :=
  if 'A' ≤ c && c ≤ 'Z' then Char.ofNat (c.toNat + 32) else c

/-- `g_utf8_strdown` (ASCII fragment). -/
def strDown (s : String) : String := ⟨s.data.map charDown⟩

/-- `g_str_has_prefix`. -/
def strHasPrefix (s pre : String) : Bool := pre.data.isPrefixOf s.data

/-- `g_str_has_suffix`. -/
def strHasSuffix (s suf : String) : Bool := suf.data.isSuffixOf s.data

/-- Lexicographic strictly-less on character lists (`g_strcmp0 < 0`;
byte order and code-point order agree on the ASCII names involved). -/
def charListLt : List Char → List Char → Bool
  | [], [] => false
  | [], _ :: _ => true
  | _ :: _, [] => false
  | a :: as, b :: bs => if a < b then true else if b < a then false else charListLt as bs

/-- `g_strcmp0(a, b) < 0`. -/
def strLt (a b : String) : Bool := charListLt a.data b.data

/-- Split at the first occurrence of `c`: `some (before, after)` or `none`
when `c` does not occur.  Models `g_strsplit(s, ":", 2)` (which yields
more than one token exactly when the separator occurs). -/
def splitOnceChar (c : Char) : List Char → Option (List Char × List Char)
  | [] => none
  | x :: xs =>
    if x = c then some ([], xs)
    else
      match splitOnceChar c xs with
      | none => none
      | some (pre, post) => some (x :: pre, post)

/-- Accumulating pass for `g_path_get_basename`: the last `/`-separated
component (the paths involved have no trailing slash). -/
def basenameChars (cur : List Char) : List Char → List Char
  | [] => cur.reverse
  | c :: cs => if c = '/' then basenameChars [] cs else basenameChars (c :: cur) cs

/-- `g_string_replace(s, pat, rep, 1)` on character lists: replace the
first occurrence of `pat` (the call sites guarantee `pat` is non-empty
and occurs). -/
def listReplaceFirst (pat rep : List Char) : List Char → List Char
  | [] => []
  | x :: xs =>
    if pat.isPrefixOf (x :: xs) then rep ++ (x :: xs).drop pat.length
    else x :: listReplaceFirst pat rep xs

/-- The FuHwids store as seen through the calls fu-context.c makes into it
(`fu_hwids_has_guid`, `fu_hwids_get_guids`, `fu_hwids_get_value`,
`fu_hwids_get_replace_values`); the store itself is external. -/
structure FuHwids where
  guids : List String
  getValue : String → Option String
  getReplaceValues : String → Except FuError String

/-- The FuSmbios store as seen through `fu_smbios_get_string`,
`fu_smbios_get_data` and `fu_smbios_get_integer`; external. -/
structure FuSmbios where
  getString : Nat → Nat → Nat → Option String
  getData : Nat → Nat → Except FuError (List Nat)
  getInteger : Nat → Nat → Nat → Nat

/-- `FU_VOLUME_KIND_ESP` (the ESP partition-type GUID string constant from
fu-volume.h). -/
def FU_VOLUME_KIND_ESP : String := "c12a7328-f81f-11d2-ba4b-00a0c93ec93b"

/-- `FU_VOLUME_KIND_BDP` (the basic-data-partition GUID string constant). -/
def FU_VOLUME_KIND_BDP : String := "ebd0a0a2-b9e5-4433-87c0-68b6b72699c7"

/-- A FuVolume, recording both its identity fields and the answers the
external volume/filesystem layer would give for it:
`lockerResult` is the outcome of `fu_volume_locker` (`none` = mounts fine),
`mountPoint` the path `fu_volume_get_mount_point` reports once mounted,
`fileList` the result of `fu_path_get_files` on the mount point
(`none` = listing error), `hasEfiDirUpper`/`hasEfiDirLower` the
`g_file_test(_, IS_DIR)` results for `EFI/` and `efi/`, and
`hddDevicePath` the EFI hard-drive device-path descriptor computed by
`fu_efi_hard_drive_device_path_new_from_volume` (`none` = it fails). -/
structure FuVolume where
  id : String
  partitionKind : String
  partitionUuid : String
  idType : String
  isInternal : Bool
  sizeBytes : Nat
  lockerResult : Option FuError
  mountPoint : String
  fileList : Option (List String)
  hasEfiDirUpper : Bool
  hasEfiDirLower : Bool
  hddDevicePath : Option String
deriving DecidableEq, Repr

/-- The FuContext private state (`FuContextPrivate`), restricted to the
fields the embedded operations read or write. -/
structure FuContext where
  flags : FuContextFlag → Bool
  powerState : Nat
  lidState : Nat
  displayState : Nat
  chassisKind : Nat
  batteryLevel : Nat
  batteryThreshold : Nat
  espLocation : Option String
  espVolumes : List FuVolume
  udevSubsystems : List (String × List String)
  hwids : FuHwids
  smbios : FuSmbios
  hwidFlags : List String

/-- `fu_context_has_flag`. -/
def fu_context_has_flag (ctx : FuContext) (flag : FuContextFlag) : Bool :=
  ctx.flags flag

/-- `fu_context_add_flag` (the change-notify emission is not modelled;
it does not affect any claim). -/
def fu_context_add_flag (ctx : FuContext) (flag : FuContextFlag) : FuContext :=
  { ctx with flags := fun g => if g = flag then true else ctx.flags g }

/-- `fu_context_set_battery_level`: returns the updated context and
whether a "battery-level" change notification was emitted.  Values above
`FWUPD_BATTERY_LEVEL_INVALID` are rejected by the
`g_return_if_fail(battery_level <= FWUPD_BATTERY_LEVEL_INVALID)` guard. -/
def fu_context_set_battery_level (ctx : FuContext) (battery_level : Nat) :
    FuContext × Bool :=
  if FWUPD_BATTERY_LEVEL_INVALID < battery_level then (ctx, false)
  else if ctx.batteryLevel = battery_level then (ctx, false)
  else ({ ctx with batteryLevel := battery_level }, true)

/-- `fu_context_set_battery_threshold`: same shape as the level setter. -/
def fu_context_set_battery_threshold (ctx : FuContext) (battery_threshold : Nat) :
    FuContext × Bool :=
  if FWUPD_BATTERY_LEVEL_INVALID < battery_threshold then (ctx, false)
  else if ctx.batteryThreshold = battery_threshold then (ctx, false)
  else ({ ctx with batteryThreshold := battery_threshold }, true)

/-- `fu_context_load_quirks`: `fu_quirks_load` (external, outcome given by
`quirksLoad`) is attempted; on failure only a warning is logged and the
function still returns TRUE. -/
def fu_context_load_quirks (quirksLoad : Nat → Except FuError Unit)
    (flags : Nat) : Except FuError Bool :=
  match quirksLoad flags with
  | .error _ => .ok true    -- "Failed to load quirks: ..." warning only
  | .ok _ => .ok true

/-! ## HWID / SMBIOS read accessors and their LOADED_HWINFO guards -/

/-- `fu_context_has_hwid_guid`: guard branch returns FALSE (after a
`g_critical`), otherwise delegates to `fu_hwids_has_guid`. -/
def fu_context_has_hwid_guid (ctx : FuContext) (guid : String) : Bool :=
  if !fu_context_has_flag ctx .loadedHwinfo then false
  else ctx.hwids.guids.contains guid

/-- `fu_context_get_hwid_guids`: guard branch returns NULL, otherwise the
HWID store's GUID array. -/
def fu_context_get_hwid_guids (ctx : FuContext) : Option (List String) :=
  if !fu_context_has_flag ctx .loadedHwinfo then none
  else some ctx.hwids.guids

/-- `fu_context_get_hwid_value`: guard branch returns NULL, otherwise
delegates to `fu_hwids_get_value`. -/
def fu_context_get_hwid_value (ctx : FuContext) (key : String) : Option String :=
  if !fu_context_has_flag ctx .loadedHwinfo then none
  else ctx.hwids.getValue key

/-- `fu_context_get_hwid_replace_value`: guard branch returns NULL with an
INTERNAL "no data" error, otherwise delegates to
`fu_hwids_get_replace_values`. -/
def fu_context_get_hwid_replace_value (ctx : FuContext) (keys : String) :
    Except FuError String :=
  if !fu_context_has_flag ctx .loadedHwinfo then
    .error ⟨.internal, "no data"⟩
  else ctx.hwids.getReplaceValues keys

/-- `fu_context_get_smbios_string`: guard branch returns NULL (no error is
set on this path), otherwise delegates to `fu_smbios_get_string`. -/
def fu_context_get_smbios_string (ctx : FuContext) (type_ length offset : Nat) :
    Option String :=
  if !fu_context_has_flag ctx .loadedHwinfo then none
  else ctx.smbios.getString type_ length offset

/-- `fu_context_get_smbios_data`: guard branch returns NULL with an
INTERNAL "no data" error, otherwise delegates to `fu_smbios_get_data`. -/
def fu_context_get_smbios_data (ctx : FuContext) (type_ length : Nat) :
    Except FuError (List Nat) :=
  if !fu_context_has_flag ctx .loadedHwinfo then
    .error ⟨.internal, "no data"⟩
  else ctx.smbios.getData type_ length

/-- `fu_context_get_smbios_integer`: guard branch returns G_MAXUINT,
otherwise delegates to `fu_smbios_get_integer`. -/
def fu_context_get_smbios_integer (ctx : FuContext) (type_ length offset : Nat) :
    Nat :=
  if !fu_context_has_flag ctx .loadedHwinfo then G_MAXUINT
  else ctx.smbios.getInteger type_ length offset

/-! ## udev subsystem → plugin-names registry -/

/-- Assoc-list lookup standing in for `g_hash_table_lookup` on
`priv->udev_subsystems` (only keyed lookups are performed, so iteration
order of the hash table is irrelevant). -/
def udevLookup (m : List (String × List String)) (subsystem : String) :
    Option (List String) :=
  match m.find? (fun kv => kv.1 == subsystem) with
  | some kv => some kv.2
  | none => none

/-- Replace the value stored for an existing key. -/
def udevStore (m : List (String × List String)) (subsystem : String)
    (names : List String) : List (String × List String) :=
  m.map (fun kv => if kv.1 == subsystem then (kv.1, names) else kv)

/-- Ascending insertion by `g_strcmp0` order (single step). -/
def insStringAsc (x : String) : List String → List String
  | [] => [x]
  | y :: ys => if strLt x y then x :: y :: ys else y :: insStringAsc x ys

/-- Ascending sort by `g_strcmp0` order, modelling
`g_ptr_array_sort(plugin_names, fu_context_udev_plugin_names_sort_cb)`. -/
def sortStringsAsc : List String → List String
  | [] => []
  | x :: xs => insStringAsc x (sortStringsAsc xs)

/-- One `fu_context_add_udev_subsystem` body for a single subsystem key
(the "already exists" and "add" paths of the C function). -/
def udevAddOne (m : List (String × List String)) (subsystem : String)
    (plugin_name : Option String) : List (String × List String) :=
  match udevLookup m subsystem with
  | some plugin_names =>
    match plugin_name with
    | some p =>
      if plugin_names.contains p then m
      else udevStore m subsystem (sortStringsAsc (plugin_names ++ [p]))
    | none => m
  | none =>
    match plugin_name with
    | some p => m ++ [(subsystem, [p])]
    | none => m ++ [(subsystem, [])]

/-- `fu_context_add_udev_subsystem`: when given `subsystem:devtype` it
first registers a watch for the bare `subsystem` (the recursive call with
plugin NULL), then handles the full key. -/
def fu_context_add_udev_subsystem (m : List (String × List String))
    (subsystem : String) (plugin_name : Option String) :
    List (String × List String) :=
  let m1 :=
    match splitOnceChar ':' subsystem.data with
    | some (pre, _) => udevAddOne m ⟨pre⟩ none
    | none => m
  udevAddOne m1 subsystem plugin_name

/-- `fu_context_get_plugin_names_for_udev_subsystem`: extends the result
with the base-subsystem names (when the key is `subsystem:devtype`), then
with the exact-match names; errors with NOT_FOUND when empty.  No sorting
happens on this path. -/
def fu_context_get_plugin_names_for_udev_subsystem
    (m : List (String × List String)) (subsystem : String) :
    Except FuError (List String) :=
  let base : List String :=
    match splitOnceChar ':' subsystem.data with
    | some (pre, _) => (udevLookup m ⟨pre⟩).getD []
    | none => []
  let exact : List String := (udevLookup m subsystem).getD []
  let plugin_names := base ++ exact
  if plugin_names.isEmpty then
    .error ⟨.notFound, "no plugins registered for " ++ subsystem⟩
  else .ok plugin_names

/-- Boolean "is ascending by `g_strcmp0` order" used to state
sortedness. -/
def listIsSortedAsc : List String → Bool
  | [] => true
  | [_] => true
  | x :: y :: ys => (strLt x y || x == y) && listIsSortedAsc (y :: ys)

/-! ## load_hwinfo -/

/-- `FuContextHwidFlags`: which HWID probes `load_hwinfo` should run. -/
structure FuContextHwidFlags where
  loadConfig : Bool
  loadSmbios : Bool
  loadFdt : Bool
  loadKenv : Bool
  loadDmi : Bool
  loadDarwin : Bool
deriving DecidableEq, Repr

/-- The `hwids_setup_map` of `fu_context_load_hwinfo`, in source order:
probe name paired with its selecting flag. -/
def hwidsSetupMap : List (String × (FuContextHwidFlags → Bool)) :=
  [("config", fun f => f.loadConfig),
   ("smbios", fun f => f.loadSmbios),
   ("fdt", fun f => f.loadFdt),
   ("kenv", fun f => f.loadKenv),
   ("dmi", fun f => f.loadDmi),
   ("darwin", fun f => f.loadDarwin)]

/-- Environment for `fu_context_load_hwinfo`: outcomes of the external
calls it makes.  `probeOk`/`probeEffect` give, per map entry name, whether
the `fu_hwids_*_setup` probe succeeds and how it enriches the HWID store
when it does. -/
structure FuHwinfoEnv where
  configLoad : Except FuError Unit            -- fu_config_load
  probeOk : String → Bool
  probeEffect : String → FuHwids → FuHwids
  hwidsSetup : Except FuError Unit            -- fu_hwids_setup
  biosReload : Except FuError Unit            -- fu_context_reload_bios_settings

/-- `fu_context_load_hwinfo`.  Returns the updated context, the list of
probes invoked (in map order), and the overall result.  A failing probe is
only logged ("failed to load %s") and the loop continues; the
LOADED_HWINFO flag is added unconditionally after the probe loop, the
`fu_hwids_setup` / BIOS-settings failures are warnings only, and the
function then always returns TRUE.  Only a `fu_config_load` failure (the
"required always" step before the probe loop) is propagated. -/
def fu_context_load_hwinfo (env : FuHwinfoEnv) (ctx : FuContext)
    (flags : FuContextHwidFlags) :
    FuContext × List String × Except FuError Bool :=
  match env.configLoad with
  | .error e => (ctx, [], .error e)
  | .ok _ =>
    let probesRun := ((hwidsSetupMap.filter (fun m => m.2 flags)).map (fun m => m.1))
    let hwids1 := probesRun.foldl
      (fun h name => if env.probeOk name then env.probeEffect name h else h)
      ctx.hwids
    let ctx1 := fu_context_add_flag { ctx with hwids := hwids1 } .loadedHwinfo
    -- fu_hwids_setup / reload_bios_settings failures are logged only
    let ctx2 := { ctx1 with
      udevSubsystems :=
        fu_context_add_udev_subsystem ctx1.udevSubsystems "firmware-attributes" none }
    (ctx2, probesRun, .ok true)

/-! ## ESP volume discovery and caching -/

/-- `fu_context_add_esp_volume`: append unless a volume with the same id
is already cached. -/
def fu_context_add_esp_volume (esp_volumes : List FuVolume) (volume : FuVolume) :
    List FuVolume :=
  if esp_volumes.any (fun t => t.id == volume.id) then esp_volumes
  else esp_volumes ++ [volume]

/-- The synthetic volume built for the `FWUPD_UEFI_ESP_PATH` test
override: `fu_volume_new_from_mount_path` plus the ESP kind and the zero
partition UUID. -/
def syntheticEspVolume (path : String) : FuVolume :=
  { id := ""
    partitionKind := FU_VOLUME_KIND_ESP
    partitionUuid := "00000000-0000-0000-0000-000000000000"
    idType := ""
    isInternal := false
    sizeBytes := 0
    lockerResult := none
    mountPoint := path
    fileList := some []
    hasEfiDirUpper := false
    hasEfiDirLower := false
    hddDevicePath := none }

/-- Environment for `fu_context_get_esp_volumes`: the test-suite override
variable and the outcomes of the external enumeration calls. -/
structure FuEspEnv where
  envEspPath : Option String                       -- getenv FWUPD_UEFI_ESP_PATH
  volumesEsp : Except FuError (List FuVolume)      -- fu_volume_new_by_kind ESP
  volumesBdp : Except FuError (List FuVolume)      -- fu_volume_new_by_kind BDP
  blockDevices : Except FuError Nat                -- fu_common_get_block_devices

/-- `fu_context_get_esp_volumes`.  Takes the current cache
(`priv->esp_volumes`) and returns the new cache plus the call's result.
A non-empty cache is returned immediately; otherwise the env override or
the ESP (vfat) and BDP (vfat, internal) enumerations populate it through
`fu_context_add_esp_volume`; if still empty, the block-device probe
decides which error surfaces. -/
def fu_context_get_esp_volumes (env : FuEspEnv) (cache : List FuVolume) :
    List FuVolume × Except FuError (List FuVolume) :=
  if cache.length > 0 then (cache, .ok cache)
  else
    match env.envEspPath with
    | some path_tmp =>
      let cache1 := fu_context_add_esp_volume cache (syntheticEspVolume path_tmp)
      (cache1, .ok cache1)
    | none =>
      let cache1 :=
        match env.volumesEsp with
        | .error _ => cache   -- only g_debug
        | .ok vols =>
          (vols.filter (fun v => v.idType == "vfat")).foldl
            fu_context_add_esp_volume cache
      let cache2 :=
        match env.volumesBdp with
        | .error _ => cache1  -- only g_debug
        | .ok vols =>
          (vols.filter (fun v => v.idType == "vfat" && v.isInternal)).foldl
            fu_context_add_esp_volume cache1
      if cache2.length = 0 then
        match env.blockDevices with
        | .error e => (cache2, .error e)
        | .ok _ => (cache2, .error ⟨.notFound, "No ESP or BDP found"⟩)
      else (cache2, .ok cache2)

/-! ## Default ESP selection (scoring algorithm) -/

/-- `g_path_get_basename` restricted to the cases arising here: the last
`/`-separated component. -/
def g_path_get_basename (fn : String) : String :=
  ⟨basenameChars [] fn.data⟩

/-- The prefix table of `fu_context_is_esp_linux`. -/
def espLinuxPrefixes : List String :=
  ["grub", "shim", "systemd-boot", "zfsbootmenu"]

/-- `fu_context_is_esp`: the mounted volume has a top-level `EFI/` or
`efi/` directory.  (At both call sites the volume is mounted, so the
NULL-mount-point early FALSE cannot fire.) -/
def fu_context_is_esp (esp : FuVolume) : Bool :=
  esp.hasEfiDirUpper || esp.hasEfiDirLower

/-- The inner prefix loop of `fu_context_is_esp_linux` for one file: the
lowercased (`g_utf8_strdown`; the names involved are ASCII) basename
starts with one of `espLinuxPrefixes` and ends with `.efi`. -/
def espLinuxFileMatch (fn : String) : Bool :=
  let basename_lower := strDown (g_path_get_basename fn)
  espLinuxPrefixes.any (fun p =>
    strHasPrefix basename_lower p && strHasSuffix basename_lower ".efi")

/-- `fu_context_is_esp_linux`: list the top-level files of the mounted
volume and look for a likely bootloader basename.  `.ok` = TRUE; the
C FALSE-with-error returns become `.error`. -/
def fu_context_is_esp_linux (esp : FuVolume) : Except FuError Unit :=
  match esp.fileList with
  | none => .error ⟨.internal, "failed to list files"⟩
  | some files =>
    if files.any espLinuxFileMatch then .ok ()
    else .error ⟨.notFound, "did not any files with prefix"⟩

/-- The score computed for a candidate inside the multi-candidate loop of
`fu_context_get_default_esp`: mebibytes of size, +0x20000 for the ESP
partition kind, +0x10000 when `fu_context_is_esp_linux` succeeds. -/
def espScoreOf (esp : FuVolume) : Nat :=
  let base := esp.sizeBytes / (1024 * 1024)
  let kindBonus := if esp.partitionKind = FU_VOLUME_KIND_ESP then 0x20000 else 0
  let linuxBonus :=
    match fu_context_is_esp_linux esp with
    | .ok _ => 0x10000
    | .error _ => 0
  base + kindBonus + linuxBonus

/-- Whether a candidate survives the multi-candidate loop's `continue`
filters and is inserted into `esp_scores`: the mount succeeds, the mount
point matches any user-configured ESP location, and the volume looks like
an ESP (`fu_context_is_esp`). -/
def espSurvives (user_esp_location : Option String) (esp : FuVolume) : Bool :=
  esp.lockerResult.isNone &&
  (match user_esp_location with
   | some loc => esp.mountPoint == loc
   | none => true) &&
  fu_context_is_esp esp

/-- The score `fu_context_sort_esp_score_cb` actually sees: a
`g_hash_table_lookup` miss (a filtered-out candidate) yields NULL, i.e.
score 0. -/
def espEffectiveScore (user_esp_location : Option String) (esp : FuVolume) : Nat :=
  if espSurvives user_esp_location esp then espScoreOf esp else 0

/-- The Linux-heuristic file condition as the specification words it: the
file name case-insensitively starts with grub, shim, systemd-boot or
zfsbootmenu and ends with `.efi`.  Stated independently of the source
translation so the two can be compared. -/
def espLinuxSpecMatch (fn : String) : Bool :=
  (strHasPrefix (strDown (g_path_get_basename fn)) "grub" ||
   strHasPrefix (strDown (g_path_get_basename fn)) "shim" ||
   strHasPrefix (strDown (g_path_get_basename fn)) "systemd-boot" ||
   strHasPrefix (strDown (g_path_get_basename fn)) "zfsbootmenu") &&
  strHasSuffix (strDown (g_path_get_basename fn)) ".efi"

/-- The candidate score as the specification words it: floor of the size
in bytes divided by 2^20, plus 0x20000 if the partition kind is exactly
ESP, plus 0x10000 if some top-level file name satisfies
`espLinuxSpecMatch`. -/
def espScoreSpec (esp : FuVolume) : Nat :=
  esp.sizeBytes / 2 ^ 20 +
  (if esp.partitionKind = FU_VOLUME_KIND_ESP then 0x20000 else 0) +
  (if (esp.fileList.getD []).any espLinuxSpecMatch then 0x10000 else 0)

/-- Stable insert for a descending sort by `key`: `x` is placed before
the first element whose key is not larger.  This matches GLib's
`g_ptr_array_sort_with_data` with `fu_context_sort_esp_score_cb`
(documented as a stable sort since GLib 2.32), where the comparator
orders by score descending and returns 0 on ties. -/
def fuInsertDesc {α : Type} (key : α → Nat) (x : α) : List α → List α
  | [] => [x]
  | y :: ys => if key y ≤ key x then x :: y :: ys else y :: fuInsertDesc key x ys

/-- Stable descending sort by `key` (insertion sort). -/
def fuSortDesc {α : Type} (key : α → Nat) : List α → List α
  | [] => []
  | x :: xs => fuInsertDesc key x (fuSortDesc key xs)

/-- `fu_context_get_default_esp`, after `fu_context_get_esp_volumes` has
produced the candidate array `esp_volumes` (that call never yields an
empty array: it errors instead, so the `[]` case below is unreachable and
mapped to an INTERNAL error).  `inhibit` is the
FU_CONTEXT_FLAG_INHIBIT_VOLUME_MOUNT test on `priv->flags`. -/
def fu_context_get_default_esp (inhibit : Bool)
    (user_esp_location : Option String) (esp_volumes : List FuVolume) :
    Except FuError FuVolume :=
  if inhibit then
    .error ⟨.notSupported, "cannot mount volume by policy"⟩
  else if 1 < esp_volumes.length then
    -- multi-candidate branch: survivors get scores, the array (including
    -- non-survivors) is sorted by looked-up score, index 0 is returned
    if (esp_volumes.filter (espSurvives user_esp_location)).isEmpty then
      .error ⟨.notSupported, "no EFI system partition found"⟩
    else
      match fuSortDesc (espEffectiveScore user_esp_location) esp_volumes with
      | [] => .error ⟨.internal, "unreachable"⟩
      | esp :: _ => .ok esp
  else
    match esp_volumes with
    | [] => .error ⟨.internal, "unreachable"⟩
    | esp :: _ =>
      -- single-candidate branch
      match esp.lockerResult with
      | some e => .error e
      | none =>
        match user_esp_location with
        | some loc =>
          if esp.mountPoint == loc then .ok esp
          else .error ⟨.notSupported, "user specified ESP " ++ loc ++ " not found"⟩
        | none => .ok esp

/-! ## Boot-asset discovery (ESP file extraction) -/

/-- The FILE node of a load option's device path list:
`fu_efi_file_path_device_path_get_name` may fail. -/
structure FuEfiFilePathDevicePath where
  name : Except FuError String

/-- The device-path list carried by a load option, reduced to the two
images `fu_context_get_esp_files_for_entry` extracts from it: the
hard-drive node (its comparison descriptor) and the file-path node. -/
structure FuEfiDevicePathList where
  hdd : Option String
  filePath : Option FuEfiFilePathDevicePath

/-- A UEFI boot-manager load option (`FuEfiLoadOption`), reduced to the
fields read by the extraction code. -/
structure FuEfiLoadOption where
  id : String
  idx : Nat
  dpList : Option FuEfiDevicePathList
  metadataPath : Option String                -- FU_EFI_LOAD_OPTION_METADATA_PATH

/-- `FuContextEspFileFlags`. -/
structure FuContextEspFileFlags where
  includeFirstStage : Bool
  includeSecondStage : Bool
  includeRevocations : Bool
deriving DecidableEq, Repr

/-- A collected PE file: the filename it was loaded from, tagged with the
load option's index (`fu_firmware_set_idx`). -/
structure EspFile where
  filename : String
  idx : Nat
deriving DecidableEq, Repr

/-- `fu_context_get_esp_volume_by_hard_drive_device_path`: walk the
volume set, skip volumes whose own HDD device path cannot be computed,
and return the first whose descriptor compares equal; NOT_FOUND
otherwise. -/
def fu_context_get_esp_volume_by_hard_drive_device_path
    (volumes : List FuVolume) (dp : String) : Except FuError FuVolume :=
  match volumes.find? (fun v => v.hddDevicePath == some dp) with
  | some volume => .ok volume
  | none => .error ⟨.notFound, "could not find EFI DP"⟩

/-- `fu_context_esp_load_pe_file`: parse `filename` as a PE image
(`peLoad` is the external parser+filesystem), prefixing the error on
failure. -/
def fu_context_esp_load_pe_file (peLoad : String → Except FuError Unit)
    (filename : String) : Except FuError EspFile :=
  match peLoad filename with
  | .ok _ => .ok ⟨filename, 0⟩
  | .error e => .error ⟨e.code, "failed to load " ++ filename ++ ": " ++ e.message⟩

/-- One per-stage block of `fu_context_get_esp_files_for_entry`: try to
load `filename`; a NOT_SUPPORTED or INVALID_FILE failure is ignored
("ignoring: ..."), any other failure is propagated, success appends the
file tagged with the entry index. -/
def espStageStep (peLoad : String → Except FuError Unit) (filename : String)
    (idx : Nat) (files : List EspFile) : List EspFile × Option FuError :=
  match fu_context_esp_load_pe_file peLoad filename with
  | .error e =>
    if e.code = .notSupported ∨ e.code = .invalidFile then (files, none)
    else (files, some e)
  | .ok _ => (files ++ [⟨filename, idx⟩], none)

/-- `g_string_replace(s, pat, rep, 1)`: replace the first occurrence. -/
def g_string_replace_first (s pat rep : String) : String :=
  ⟨listReplaceFirst pat.data rep.data s.data⟩

/-- `fu_context_get_esp_files_for_entry`.  `files` is the shared output
array, mutated in place by the C code, so the model returns the updated
list together with an optional error (`some e` = the C FALSE return;
partial appends made before the failure are kept, as in C).  `shimName`
and `grubName` are the architecture-dependent basenames from
`fu_context_build_uefi_basename_for_arch` ("shim"/"grub"). -/
def fu_context_get_esp_files_for_entry (inhibit : Bool)
    (volumes : List FuVolume) (peLoad : String → Except FuError Unit)
    (shimName grubName : String) (entry : FuEfiLoadOption)
    (files : List EspFile) (flags : FuContextEspFileFlags) :
    List EspFile × Option FuError :=
  match entry.dpList with
  | none => (files, none)                 -- no device path list: TRUE
  | some dp_list =>
    match dp_list.hdd with
    | none => (files, none)               -- no HDD node: TRUE
    | some dp_hdd =>
      match dp_list.filePath with
      | none => (files, none)             -- no FILE node: TRUE
      | some dp_path =>
        match fu_context_get_esp_volume_by_hard_drive_device_path volumes dp_hdd with
        | .error e => (files, some e)
        | .ok volume =>
          if inhibit then
            (files, some ⟨.notSupported, "cannot mount volume by policy"⟩)
          else
            match volume.lockerResult with
            | some e => (files, some e)   -- fu_volume_locker failed
            | none =>
              match dp_path.name with
              | .error e => (files, some e)
              | .ok dp_filename =>
                let filename := volume.mountPoint ++ "/" ++ dp_filename
                let step1 :=
                  if flags.includeFirstStage then
                    espStageStep peLoad filename entry.idx files
                  else (files, none)
                match step1 with
                | (files1, some e) => (files1, some e)
                | (files1, none) =>
                  let step2 :=
                    if flags.includeSecondStage && strHasSuffix filename shimName then
                      let filename2 :=
                        match entry.metadataPath with
                        | some path => g_string_replace_first filename shimName path
                        | none => g_string_replace_first filename shimName grubName
                      espStageStep peLoad filename2 entry.idx files1
                    else (files1, none)
                  match step2 with
                  | (files2, some e) => (files2, some e)
                  | (files2, none) =>
                    if flags.includeRevocations && strHasSuffix filename shimName then
                      let filename2 := g_string_replace_first filename shimName "revocations.efi"
                      espStageStep peLoad filename2 entry.idx files2
                    else (files2, none)

/-- The per-entry loop of `fu_context_get_esp_files`: an entry failing
with NOT_FOUND or INVALID_FILE is logged and skipped; any other per-entry
error aborts the whole collection. -/
def fu_context_get_esp_files_loop (inhibit : Bool) (volumes : List FuVolume)
    (peLoad : String → Except FuError Unit) (shimName grubName : String)
    (flags : FuContextEspFileFlags) :
    List FuEfiLoadOption → List EspFile → Except FuError (List EspFile)
  | [], files => .ok files
  | entry :: rest, files =>
    match fu_context_get_esp_files_for_entry inhibit volumes peLoad shimName
        grubName entry files flags with
    | (files1, none) =>
      fu_context_get_esp_files_loop inhibit volumes peLoad shimName grubName
        flags rest files1
    | (files1, some e) =>
      if e.code = .notFound ∨ e.code = .invalidFile then
        fu_context_get_esp_files_loop inhibit volumes peLoad shimName grubName
          flags rest files1
      else .error e

/-- `fu_context_get_esp_files`: enumerate the `BootOrder` entries
(`fu_efivars_get_boot_entries`, external, outcome in `entriesRes`) and
fold the per-entry extraction over them. -/
def fu_context_get_esp_files (inhibit : Bool) (volumes : List FuVolume)
    (peLoad : String → Except FuError Unit) (shimName grubName : String)
    (entriesRes : Except FuError (List FuEfiLoadOption))
    (flags : FuContextEspFileFlags) : Except FuError (List EspFile) :=
  match entriesRes with
  | .error e => .error e
  | .ok entries =>
    fu_context_get_esp_files_loop inhibit volumes peLoad shimName grubName
      flags entries []

/-! ## Concrete fixtures

Concrete volumes, contexts, entries and environments used to instantiate
the theorems below on explicit inputs. -/

/-- An unmountable candidate (`fu_volume_locker` fails); everything else
is a plausible zero-score basic-data partition. -/
def fixVolMountFail : FuVolume :=
  { id := "disk0p1", partitionKind := FU_VOLUME_KIND_BDP, partitionUuid := "u1",
    idType := "vfat", isInternal := true, sizeBytes := 1000,
    lockerResult := some ⟨.io, "failed to mount"⟩, mountPoint := "/boot/efi0",
    fileList := some [], hasEfiDirUpper := true, hasEfiDirLower := false,
    hddDevicePath := none }

/-- A mountable candidate that passes every filter but scores 0: smaller
than one MiB, basic-data kind, no Linux bootloader files. -/
def fixVolZero : FuVolume :=
  { id := "disk0p2", partitionKind := FU_VOLUME_KIND_BDP, partitionUuid := "u2",
    idType := "vfat", isInternal := true, sizeBytes := 1000,
    lockerResult := none, mountPoint := "/boot/efi1",
    fileList := some [], hasEfiDirUpper := true, hasEfiDirLower := false,
    hddDevicePath := none }

/-- An ESP-kind candidate of the given size in MiB with the given
top-level files. -/
def fixEsp (ident : String) (mib : Nat) (fls : List String) : FuVolume :=
  { id := ident, partitionKind := FU_VOLUME_KIND_ESP, partitionUuid := ident,
    idType := "vfat", isInternal := true, sizeBytes := mib * 1024 * 1024,
    lockerResult := none, mountPoint := "/mnt/" ++ ident,
    fileList := some fls, hasEfiDirUpper := true, hasEfiDirLower := false,
    hddDevicePath := none }

/-- 10 MiB ESP, no bootloader files. -/
def fixVolEsp10 : FuVolume := fixEsp "esp10" 10 []

/-- 20 MiB ESP, only a non-Linux bootloader. -/
def fixVolEsp20 : FuVolume := fixEsp "esp20" 20 ["/mnt/esp20/bootmgfw.efi"]

/-- 15 MiB ESP carrying shim, the only Linux-heuristic match. -/
def fixVolEsp15 : FuVolume := fixEsp "esp15" 15 ["/mnt/esp15/shimx64.efi"]

/-- Equal-score tie pair (same size, kind and contents). -/
def fixVolTie1 : FuVolume := fixEsp "tie1" 7 []

/-- Second element of the tie pair. -/
def fixVolTie2 : FuVolume := fixEsp "tie2" 7 []

/-- A mountable volume whose HDD device path descriptor is "hd-a". -/
def fixVolDp : FuVolume :=
  { id := "dp-vol", partitionKind := FU_VOLUME_KIND_ESP, partitionUuid := "u3",
    idType := "vfat", isInternal := true, sizeBytes := 1048576,
    lockerResult := none, mountPoint := "/efi",
    fileList := some [], hasEfiDirUpper := true, hasEfiDirLower := false,
    hddDevicePath := some "hd-a" }

/-- An unmountable volume whose HDD device path descriptor is "hd-b". -/
def fixVolDpMountFail : FuVolume :=
  { id := "dp-vol-b", partitionKind := FU_VOLUME_KIND_ESP, partitionUuid := "u4",
    idType := "vfat", isInternal := true, sizeBytes := 1048576,
    lockerResult := some ⟨.io, "mount failed"⟩, mountPoint := "/efi2",
    fileList := some [], hasEfiDirUpper := true, hasEfiDirLower := false,
    hddDevicePath := some "hd-b" }

/-- A FILE device-path node naming `EFI/a.efi`. -/
def fixFpA : FuEfiFilePathDevicePath := ⟨.ok "EFI/a.efi"⟩

/-- Device-path list pointing at `fixVolDp`. -/
def fixDpA : FuEfiDevicePathList := ⟨some "hd-a", some fixFpA⟩

/-- Device-path list pointing at `fixVolDpMountFail`. -/
def fixDpB : FuEfiDevicePathList := ⟨some "hd-b", some fixFpA⟩

/-- A boot entry whose referenced file will turn out to be absent. -/
def fixEntryAbsent : FuEfiLoadOption :=
  { id := "Boot0001", idx := 1, dpList := some fixDpA, metadataPath := none }

/-- A boot entry whose volume fails to mount. -/
def fixEntryMountFail : FuEfiLoadOption :=
  { id := "Boot0002", idx := 2, dpList := some fixDpB, metadataPath := none }

/-- PE loader for which every file is absent (NOT_FOUND). -/
def fixPeLoadAbsent (filename : String) : Except FuError Unit :=
  match filename with
  | _ => .error ⟨.notFound, "x"⟩

/-- PE loader for which every file exists but fails to parse
(INVALID_FILE). -/
def fixPeLoadInvalid (filename : String) : Except FuError Unit :=
  match filename with
  | _ => .error ⟨.invalidFile, "y"⟩

/-- Flags selecting only the first-stage bootloader. -/
def fixFlagsFirst : FuContextEspFileFlags := ⟨true, false, false⟩

/-- The udev registry obtained by registering plugin "z" then plugin "a"
for subsystem `block`, then plugin "m" for `block:partition`. -/
def fixUdevRegistry : List (String × List String) :=
  fu_context_add_udev_subsystem
    (fu_context_add_udev_subsystem
      (fu_context_add_udev_subsystem [] "block" (some "z"))
      "block" (some "a"))
    "block:partition" (some "m")

/-- A HWID store fixture. -/
def fixHwids : FuHwids :=
  { guids := ["guid-a"],
    getValue := fun key => if key == "BiosVersion" then some "1.2.3" else none,
    getReplaceValues := fun _ => .ok "replaced" }

/-- An SMBIOS store fixture. -/
def fixSmbios : FuSmbios :=
  { getString := fun _ _ _ => some "smbios-string",
    getData := fun _ _ => .ok [1, 2, 3],
    getInteger := fun _ _ _ => 7 }

/-- A context with no flags set (in particular LOADED_HWINFO unset). -/
def fixCtx : FuContext :=
  { flags := fun _ => false, powerState := 0, lidState := 0, displayState := 0,
    chassisKind := 0, batteryLevel := 50, batteryThreshold := 20,
    espLocation := none, espVolumes := [], udevSubsystems := [],
    hwids := fixHwids, smbios := fixSmbios, hwidFlags := [] }

/-- The same context with LOADED_HWINFO set. -/
def fixCtxLoaded : FuContext :=
  { fixCtx with flags := fun f => f == FuContextFlag.loadedHwinfo }

/-- A `load_hwinfo` environment where config load succeeds but every
probe fails. -/
def fixHwinfoEnv : FuHwinfoEnv :=
  { configLoad := .ok (),
    probeOk := fun _ => false,
    probeEffect := fun _ h => h,
    hwidsSetup := .error ⟨.internal, "hwids setup failed"⟩,
    biosReload := .error ⟨.internal, "bios reload failed"⟩ }

/-- HWID flags selecting every probe. -/
def fixAllHwidFlags : FuContextHwidFlags := ⟨true, true, true, true, true, true⟩

/-- ESP discovery environment in which every external probe fails. -/
def fixEspEnv : FuEspEnv :=
  { envEspPath := none,
    volumesEsp := .error ⟨.notFound, "no ESP"⟩,
    volumesBdp := .error ⟨.notFound, "no BDP"⟩,
    blockDevices := .ok 0 }

/-- A second, different ESP discovery environment (used to show cached
calls ignore the environment). -/
def fixEspEnvOther : FuEspEnv :=
  { envEspPath := some "/override",
    volumesEsp := .ok [fixVolEsp10],
    volumesBdp := .ok [fixVolZero],
    blockDevices := .error ⟨.brokenSystem, "udisks gone"⟩ }

/-! ## Helper lemmas -/

theorem mem_fuInsertDesc {α : Type} (key : α → Nat) (x : α) (l : List α)
    (a : α) : a ∈ fuInsertDesc key x l ↔ a = x ∨ a ∈ l := by
  induction l with
  | nil => simp [fuInsertDesc]
  | cons y ys ih =>
    simp only [fuInsertDesc]
    split
    · simp [List.mem_cons]
    · simp only [List.mem_cons, ih]
      tauto

theorem mem_fuSortDesc {α : Type} (key : α → Nat) (l : List α) (a : α) :
    a ∈ fuSortDesc key l ↔ a ∈ l := by
  induction l with
  | nil => simp [fuSortDesc]
  | cons x xs ih =>
    simp only [fuSortDesc, mem_fuInsertDesc, List.mem_cons, ih]

theorem length_fuInsertDesc {α : Type} (key : α → Nat) (x : α) (l : List α) :
    (fuInsertDesc key x l).length = l.length + 1 := by
  induction l with
  | nil => rfl
  | cons y ys ih =>
    simp only [fuInsertDesc]
    split
    · rfl
    · simp [List.length_cons, ih]

theorem length_fuSortDesc {α : Type} (key : α → Nat) (l : List α) :
    (fuSortDesc key l).length = l.length := by
  induction l with
  | nil => rfl
  | cons x xs ih => simp [fuSortDesc, length_fuInsertDesc, ih]

/-- The head of the descending sort carries a maximal key. -/
theorem fuSortDesc_head_max {α : Type} (key : α → Nat) :
    ∀ (l : List α) (v : α) (rest : List α),
      fuSortDesc key l = v :: rest → ∀ a ∈ l, key a ≤ key v := by
  intro l
  induction l with
  | nil => intro v rest h; simp [fuSortDesc] at h
  | cons x xs ih =>
    intro v rest h a ha
    simp only [fuSortDesc] at h
    cases hxs : fuSortDesc key xs with
    | nil =>
      have hxsnil : xs = [] := by
        have := length_fuSortDesc key xs
        rw [hxs] at this
        exact List.length_eq_zero.mp this.symm
      rw [hxs] at h
      simp only [fuInsertDesc] at h
      cases h
      subst hxsnil
      rcases List.mem_singleton.mp ha with rfl
      exact Nat.le_refl _
    | cons y ys =>
      rw [hxs] at h
      simp only [fuInsertDesc] at h
      by_cases hk : key y ≤ key x
      · rw [if_pos hk] at h
        cases h
        rcases List.mem_cons.mp ha with rfl | hmem
        · exact Nat.le_refl _
        · exact Nat.le_trans (ih y ys hxs a hmem) hk
      · rw [if_neg hk] at h
        cases h
        rcases List.mem_cons.mp ha with rfl | hmem
        · exact Nat.le_of_lt (Nat.lt_of_not_le hk)
        · exact ih v ys hxs a hmem

/-- Every successful `fu_context_get_esp_volumes` call returns exactly the
(necessarily non-empty) new cache contents. -/
theorem fu_context_get_esp_volumes_ok_shape (env : FuEspEnv)
    (cache cache2 : List FuVolume) (vols : List FuVolume)
    (h : fu_context_get_esp_volumes env cache = (cache2, .ok vols)) :
    vols = cache2 ∧ cache2 ≠ [] := by
  unfold fu_context_get_esp_volumes at h
  split at h
  case isTrue hc =>
    simp only [Prod.mk.injEq, Except.ok.injEq] at h
    obtain ⟨h1, h2⟩ := h
    subst h1
    subst h2
    refine ⟨rfl, ?_⟩
    intro hnil
    rw [hnil] at hc
    exact Nat.lt_irrefl 0 hc
  case isFalse hc =>
    have hcache : cache = [] := by
      cases cache with
      | nil => rfl
      | cons a t => exact absurd (Nat.succ_pos t.length) hc
    subst hcache
    split at h
    case h_1 p hp =>
      simp only [Prod.mk.injEq, Except.ok.injEq, fu_context_add_esp_volume,
        List.any_nil, List.nil_append, if_neg] at h
      obtain ⟨h1, h2⟩ := h
      subst h1
      subst h2
      exact ⟨rfl, by simp⟩
    case h_2 hp =>
      dsimp only at h
      split at h
      case isTrue hz =>
        split at h <;> simp at h
      case isFalse hz =>
        simp only [Prod.mk.injEq, Except.ok.injEq] at h
        obtain ⟨h1, h2⟩ := h
        subst h1
        subst h2
        refine ⟨rfl, ?_⟩
        intro hnil
        rw [hnil] at hz
        exact hz rfl

/-- Updating an existing key with `udevStore` makes later lookups see the
new value. -/
theorem udevLookup_udevStore (m : List (String × List String))
    (subsystem : String) (old v : List String)
    (h : udevLookup m subsystem = some old) :
    udevLookup (udevStore m subsystem v) subsystem = some v := by
  induction m with
  | nil => simp [udevLookup, List.find?] at h
  | cons kv t ih =>
    by_cases hk : (kv.1 == subsystem) = true
    · unfold udevLookup udevStore
      rw [List.map_cons, if_pos hk, List.find?_cons_of_pos _ (by simpa using hk)]
    · have hk2 : (kv.1 == subsystem) = false := by simpa using hk
      have hstep : udevStore (kv :: t) subsystem v = kv :: udevStore t subsystem v := by
        unfold udevStore
        rw [List.map_cons, if_neg (by simp [hk2])]
      rw [hstep]
      unfold udevLookup at h ⊢
      rw [List.find?_cons_of_neg _ (by simp [hk2])] at h ⊢
      exact ih h

/-- The per-file bootloader test coincides with the spec's wording. -/
theorem espLinuxFileMatch_eq (fn : String) :
    espLinuxFileMatch fn = espLinuxSpecMatch fn := by
  unfold espLinuxFileMatch espLinuxSpecMatch
  simp only [espLinuxPrefixes, List.any_cons, List.any_nil]
  cases strHasPrefix (strDown (g_path_get_basename fn)) "grub" <;>
    cases strHasPrefix (strDown (g_path_get_basename fn)) "shim" <;>
    cases strHasPrefix (strDown (g_path_get_basename fn)) "systemd-boot" <;>
    cases strHasPrefix (strDown (g_path_get_basename fn)) "zfsbootmenu" <;>
    cases strHasSuffix (strDown (g_path_get_basename fn)) ".efi" <;> rfl

/-- Whole-list version of `espLinuxFileMatch_eq`. -/
theorem espLinuxAny_eq (files : List String) :
    files.any espLinuxFileMatch = files.any espLinuxSpecMatch := by
  induction files with
  | nil => rfl
  | cons f t ih => simp only [List.any_cons, ih, espLinuxFileMatch_eq f]

/-! ## Claim theorems -/

/-- C6: `fu_context_load_quirks` always returns success: for every
quirk-load flags value and every outcome of the underlying quirk-store
load, a failure is only logged and no error is propagated; the function
returns TRUE. -/
theorem fu_context_load_quirks_always_ok
    (quirksLoad : Nat → Except FuError Unit) (flags : Nat) :
    fu_context_load_quirks quirksLoad flags = .ok true := by
  unfold fu_context_load_quirks
  cases quirksLoad flags <;> rfl

/-- C8: the battery level/threshold setters reject values strictly above
FWUPD_BATTERY_LEVEL_INVALID leaving the stored value unchanged and
emitting no notification; setting the currently stored value is a no-op
with no notification; and neither setter ever modifies any context field
other than its own battery field. -/
theorem fu_context_set_battery_guards (ctx : FuContext) (v : Nat)
    (hv : FWUPD_BATTERY_LEVEL_INVALID < v) :
    fu_context_set_battery_level ctx v = (ctx, false) ∧
    fu_context_set_battery_threshold ctx v = (ctx, false) ∧
    fu_context_set_battery_level ctx ctx.batteryLevel = (ctx, false) ∧
    fu_context_set_battery_threshold ctx ctx.batteryThreshold = (ctx, false) ∧
    (∀ w, (fu_context_set_battery_level ctx w).1.flags = ctx.flags ∧
      (fu_context_set_battery_level ctx w).1.powerState = ctx.powerState ∧
      (fu_context_set_battery_level ctx w).1.lidState = ctx.lidState ∧
      (fu_context_set_battery_level ctx w).1.displayState = ctx.displayState ∧
      (fu_context_set_battery_level ctx w).1.chassisKind = ctx.chassisKind ∧
      (fu_context_set_battery_level ctx w).1.batteryThreshold = ctx.batteryThreshold ∧
      (fu_context_set_battery_level ctx w).1.espLocation = ctx.espLocation ∧
      (fu_context_set_battery_level ctx w).1.espVolumes = ctx.espVolumes ∧
      (fu_context_set_battery_level ctx w).1.udevSubsystems = ctx.udevSubsystems ∧
      (fu_context_set_battery_level ctx w).1.hwids = ctx.hwids ∧
      (fu_context_set_battery_level ctx w).1.smbios = ctx.smbios ∧
      (fu_context_set_battery_level ctx w).1.hwidFlags = ctx.hwidFlags) ∧
    (∀ w, (fu_context_set_battery_threshold ctx w).1.flags = ctx.flags ∧
      (fu_context_set_battery_threshold ctx w).1.powerState = ctx.powerState ∧
      (fu_context_set_battery_threshold ctx w).1.lidState = ctx.lidState ∧
      (fu_context_set_battery_threshold ctx w).1.displayState = ctx.displayState ∧
      (fu_context_set_battery_threshold ctx w).1.chassisKind = ctx.chassisKind ∧
      (fu_context_set_battery_threshold ctx w).1.batteryLevel = ctx.batteryLevel ∧
      (fu_context_set_battery_threshold ctx w).1.espLocation = ctx.espLocation ∧
      (fu_context_set_battery_threshold ctx w).1.espVolumes = ctx.espVolumes ∧
      (fu_context_set_battery_threshold ctx w).1.udevSubsystems = ctx.udevSubsystems ∧
      (fu_context_set_battery_threshold ctx w).1.hwids = ctx.hwids ∧
      (fu_context_set_battery_threshold ctx w).1.smbios = ctx.smbios ∧
      (fu_context_set_battery_threshold ctx w).1.hwidFlags = ctx.hwidFlags) := by
  refine ⟨?_, ?_, ?_, ?_, ?_, ?_⟩
  · unfold fu_context_set_battery_level
    rw [if_pos hv]
  · unfold fu_context_set_battery_threshold
    rw [if_pos hv]
  · unfold fu_context_set_battery_level
    split
    · rfl
    · rw [if_pos rfl]
  · unfold fu_context_set_battery_threshold
    split
    · rfl
    · rw [if_pos rfl]
  · intro w
    unfold fu_context_set_battery_level
    split
    · exact ⟨rfl, rfl, rfl, rfl, rfl, rfl, rfl, rfl, rfl, rfl, rfl, rfl⟩
    · split
      · exact ⟨rfl, rfl, rfl, rfl, rfl, rfl, rfl, rfl, rfl, rfl, rfl, rfl⟩
      · exact ⟨rfl, rfl, rfl, rfl, rfl, rfl, rfl, rfl, rfl, rfl, rfl, rfl⟩
  · intro w
    unfold fu_context_set_battery_threshold
    split
    · exact ⟨rfl, rfl, rfl, rfl, rfl, rfl, rfl, rfl, rfl, rfl, rfl, rfl⟩
    · split
      · exact ⟨rfl, rfl, rfl, rfl, rfl, rfl, rfl, rfl, rfl, rfl, rfl, rfl⟩
      · exact ⟨rfl, rfl, rfl, rfl, rfl, rfl, rfl, rfl, rfl, rfl, rfl, rfl⟩

/-- C8 witness: the guards evaluated on a concrete context and the
out-of-range value 102. -/
theorem fu_context_set_battery_guards_witness :
    FWUPD_BATTERY_LEVEL_INVALID < 102 ∧
    fu_context_set_battery_level fixCtx 102 = (fixCtx, false) ∧
    fu_context_set_battery_threshold fixCtx 102 = (fixCtx, false) ∧
    fu_context_set_battery_level fixCtx fixCtx.batteryLevel = (fixCtx, false) ∧
    fu_context_set_battery_threshold fixCtx fixCtx.batteryThreshold = (fixCtx, false) :=
  ⟨by decide,
   (fu_context_set_battery_guards fixCtx 102 (by decide)).1,
   (fu_context_set_battery_guards fixCtx 102 (by decide)).2.1,
   (fu_context_set_battery_guards fixCtx 102 (by decide)).2.2.1,
   (fu_context_set_battery_guards fixCtx 102 (by decide)).2.2.2.1⟩

/-- C10: with FU_CONTEXT_FLAG_INHIBIT_VOLUME_MOUNT set and the volume set
discoverable, `fu_context_get_default_esp` always fails with the
not-supported "cannot mount volume by policy" error, for every candidate
set and every user-configured ESP location; and per-entry boot-asset
extraction fails with the same error before any mount (the result is the
same whatever the matched volume's mount outcome would be, and the `files`
array is untouched). -/
theorem fu_context_inhibit_volume_mount_policy :
    (∀ (user_esp_location : Option String) (esp_volumes : List FuVolume),
       fu_context_get_default_esp true user_esp_location esp_volumes =
         .error ⟨.notSupported, "cannot mount volume by policy"⟩) ∧
    (∀ (volumes : List FuVolume) (peLoad : String → Except FuError Unit)
       (shimName grubName : String) (entry : FuEfiLoadOption)
       (files : List EspFile) (flags : FuContextEspFileFlags)
       (dpl : FuEfiDevicePathList) (hdd : String)
       (fp : FuEfiFilePathDevicePath) (volume : FuVolume),
       entry.dpList = some dpl → dpl.hdd = some hdd → dpl.filePath = some fp →
       fu_context_get_esp_volume_by_hard_drive_device_path volumes hdd = .ok volume →
       fu_context_get_esp_files_for_entry true volumes peLoad shimName grubName
           entry files flags =
         (files, some ⟨.notSupported, "cannot mount volume by policy"⟩)) := by
  constructor
  · intro user_esp_location esp_volumes
    rfl
  · intro volumes peLoad shimName grubName entry files flags dpl hdd fp volume
      h1 h2 h3 h4
    unfold fu_context_get_esp_files_for_entry
    simp only [h1, h2, h3, h4, if_true]

/-- C10 witness: the policy error on concrete inputs. -/
theorem fu_context_inhibit_volume_mount_policy_witness :
    fu_context_get_default_esp true (some "/boot/efi") [fixVolEsp15] =
      .error ⟨.notSupported, "cannot mount volume by policy"⟩ ∧
    (fixEntryAbsent.dpList = some fixDpA ∧ fixDpA.hdd = some "hd-a" ∧
     fixDpA.filePath = some fixFpA ∧
     fu_context_get_esp_volume_by_hard_drive_device_path [fixVolDp] "hd-a" =
       .ok fixVolDp) ∧
    fu_context_get_esp_files_for_entry true [fixVolDp] fixPeLoadAbsent
        "shimx64.efi" "grubx64.efi" fixEntryAbsent [] fixFlagsFirst =
      ([], some ⟨.notSupported, "cannot mount volume by policy"⟩) :=
  ⟨fu_context_inhibit_volume_mount_policy.1 (some "/boot/efi") [fixVolEsp15],
   ⟨rfl, rfl, rfl, rfl⟩,
   fu_context_inhibit_volume_mount_policy.2 [fixVolDp] fixPeLoadAbsent
     "shimx64.efi" "grubx64.efi" fixEntryAbsent [] fixFlagsFirst fixDpA "hd-a"
     fixFpA fixVolDp rfl rfl rfl rfl⟩

/-- C5: whenever the mandatory `fu_config_load` step succeeds,
`fu_context_load_hwinfo` runs every selected probe in map order
regardless of probe failures (failures are only logged), still sets the
LOADED_HWINFO flag, and returns overall success for every probe-outcome
environment and every flag subset. -/
theorem fu_context_load_hwinfo_probe_failures_nonfatal
    (env : FuHwinfoEnv) (ctx : FuContext) (flags : FuContextHwidFlags)
    (hconfig : env.configLoad = .ok ()) :
    (fu_context_load_hwinfo env ctx flags).2.2 = .ok true ∧
    (fu_context_load_hwinfo env ctx flags).1.flags .loadedHwinfo = true ∧
    (fu_context_load_hwinfo env ctx flags).2.1 =
      (hwidsSetupMap.filter (fun m => m.2 flags)).map (fun m => m.1) := by
  unfold fu_context_load_hwinfo
  rw [hconfig]
  exact ⟨rfl, by simp [fu_context_add_flag], rfl⟩

/-- C5 witness: with every probe selected and every probe failing, the
call still succeeds, sets the flag, and runs all six probes in map
order. -/
theorem fu_context_load_hwinfo_probe_failures_nonfatal_witness :
    fixHwinfoEnv.configLoad = .ok () ∧
    (∀ name, fixHwinfoEnv.probeOk name = false) ∧
    (fu_context_load_hwinfo fixHwinfoEnv fixCtx fixAllHwidFlags).2.2 = .ok true ∧
    (fu_context_load_hwinfo fixHwinfoEnv fixCtx fixAllHwidFlags).1.flags
      .loadedHwinfo = true ∧
    (fu_context_load_hwinfo fixHwinfoEnv fixCtx fixAllHwidFlags).2.1 =
      (hwidsSetupMap.filter (fun m => m.2 fixAllHwidFlags)).map (fun m => m.1) ∧
    (fu_context_load_hwinfo fixHwinfoEnv fixCtx fixAllHwidFlags).2.1 =
      ["config", "smbios", "fdt", "kenv", "dmi", "darwin"] :=
  ⟨rfl, fun _ => rfl,
   (fu_context_load_hwinfo_probe_failures_nonfatal fixHwinfoEnv fixCtx
     fixAllHwidFlags rfl).1,
   (fu_context_load_hwinfo_probe_failures_nonfatal fixHwinfoEnv fixCtx
     fixAllHwidFlags rfl).2.1,
   (fu_context_load_hwinfo_probe_failures_nonfatal fixHwinfoEnv fixCtx
     fixAllHwidFlags rfl).2.2,
   rfl⟩

/-- C3: `fu_context_get_esp_volumes` returns the cached set, unchanged
and without consulting the environment (no enumeration, no probing),
whenever the cache is non-empty; consequently any call after a successful
call returns the identical collection whatever the environment has
become. -/
theorem fu_context_get_esp_volumes_cache :
    (∀ (env : FuEspEnv) (cache : List FuVolume), cache ≠ [] →
       fu_context_get_esp_volumes env cache = (cache, .ok cache)) ∧
    (∀ (env env2 : FuEspEnv) (cache cache2 vols : List FuVolume),
       fu_context_get_esp_volumes env cache = (cache2, .ok vols) →
       fu_context_get_esp_volumes env2 cache2 = (cache2, .ok vols)) := by
  have part1 : ∀ (env : FuEspEnv) (cache : List FuVolume), cache ≠ [] →
      fu_context_get_esp_volumes env cache = (cache, .ok cache) := by
    intro env cache hc
    unfold fu_context_get_esp_volumes
    rw [if_pos (List.length_pos.mpr hc)]
  refine ⟨part1, ?_⟩
  intro env env2 cache cache2 vols h
  obtain ⟨hv, hne⟩ := fu_context_get_esp_volumes_ok_shape env cache cache2 vols h
  subst hv
  exact part1 env2 vols hne

/-- C3 witness: a populated cache is returned as-is under two different
environments, including one whose enumeration results changed. -/
theorem fu_context_get_esp_volumes_cache_witness :
    (([fixVolEsp15] : List FuVolume) ≠ [] ∧
     fu_context_get_esp_volumes fixEspEnv [fixVolEsp15] =
       ([fixVolEsp15], .ok [fixVolEsp15])) ∧
    fu_context_get_esp_volumes fixEspEnvOther [fixVolEsp15] =
      ([fixVolEsp15], .ok [fixVolEsp15]) :=
  ⟨⟨by simp, fu_context_get_esp_volumes_cache.1 fixEspEnv [fixVolEsp15] (by simp)⟩,
   fu_context_get_esp_volumes_cache.2 fixEspEnv fixEspEnvOther [fixVolEsp15]
     [fixVolEsp15] [fixVolEsp15] rfl⟩

/-- C4: while LOADED_HWINFO is unset every HWID/SMBIOS read accessor
returns its guard sentinel (FALSE, NULL, G_MAXUINT, or the explicit
INTERNAL error) for every context, whatever the underlying registries
hold; once the flag is set the guard branch cannot fire and each accessor
is exactly the underlying registry lookup. -/
theorem fu_context_hwinfo_accessor_guards (ctx : FuContext) :
    (fu_context_has_flag ctx .loadedHwinfo = false →
      (∀ guid, fu_context_has_hwid_guid ctx guid = false) ∧
      fu_context_get_hwid_guids ctx = none ∧
      (∀ key, fu_context_get_hwid_value ctx key = none) ∧
      (∀ keys, fu_context_get_hwid_replace_value ctx keys =
        .error ⟨.internal, "no data"⟩) ∧
      (∀ t l o, fu_context_get_smbios_string ctx t l o = none) ∧
      (∀ t l, fu_context_get_smbios_data ctx t l = .error ⟨.internal, "no data"⟩) ∧
      (∀ t l o, fu_context_get_smbios_integer ctx t l o = G_MAXUINT)) ∧
    (fu_context_has_flag ctx .loadedHwinfo = true →
      (∀ guid, fu_context_has_hwid_guid ctx guid = ctx.hwids.guids.contains guid) ∧
      fu_context_get_hwid_guids ctx = some ctx.hwids.guids ∧
      (∀ key, fu_context_get_hwid_value ctx key = ctx.hwids.getValue key) ∧
      (∀ keys, fu_context_get_hwid_replace_value ctx keys =
        ctx.hwids.getReplaceValues keys) ∧
      (∀ t l o, fu_context_get_smbios_string ctx t l o =
        ctx.smbios.getString t l o) ∧
      (∀ t l, fu_context_get_smbios_data ctx t l = ctx.smbios.getData t l) ∧
      (∀ t l o, fu_context_get_smbios_integer ctx t l o =
        ctx.smbios.getInteger t l o)) := by
  constructor
  · intro h
    refine ⟨?_, ?_, ?_, ?_, ?_, ?_, ?_⟩ <;>
      simp [fu_context_has_hwid_guid, fu_context_get_hwid_guids,
        fu_context_get_hwid_value, fu_context_get_hwid_replace_value,
        fu_context_get_smbios_string, fu_context_get_smbios_data,
        fu_context_get_smbios_integer, h]
  · intro h
    refine ⟨?_, ?_, ?_, ?_, ?_, ?_, ?_⟩ <;>
      simp [fu_context_has_hwid_guid, fu_context_get_hwid_guids,
        fu_context_get_hwid_value, fu_context_get_hwid_replace_value,
        fu_context_get_smbios_string, fu_context_get_smbios_data,
        fu_context_get_smbios_integer, h]

/-- C4 witness: guard sentinels on a not-loaded concrete context,
delegation on the loaded one. -/
theorem fu_context_hwinfo_accessor_guards_witness :
    (fu_context_has_flag fixCtx .loadedHwinfo = false ∧
     fu_context_has_hwid_guid fixCtx "guid-a" = false ∧
     fu_context_get_hwid_guids fixCtx = none ∧
     fu_context_get_hwid_value fixCtx "BiosVersion" = none ∧
     fu_context_get_hwid_replace_value fixCtx "HardwareID-3" =
       .error ⟨.internal, "no data"⟩ ∧
     fu_context_get_smbios_string fixCtx 1 2 3 = none ∧
     fu_context_get_smbios_data fixCtx 1 2 = .error ⟨.internal, "no data"⟩ ∧
     fu_context_get_smbios_integer fixCtx 1 2 3 = G_MAXUINT) ∧
    (fu_context_has_flag fixCtxLoaded .loadedHwinfo = true ∧
     fu_context_has_hwid_guid fixCtxLoaded "guid-a" =
       fixCtxLoaded.hwids.guids.contains "guid-a" ∧
     fu_context_get_hwid_value fixCtxLoaded "BiosVersion" =
       fixCtxLoaded.hwids.getValue "BiosVersion" ∧
     fu_context_get_smbios_integer fixCtxLoaded 1 2 3 =
       fixCtxLoaded.smbios.getInteger 1 2 3) :=
  ⟨⟨rfl,
    ((fu_context_hwinfo_accessor_guards fixCtx).1 rfl).1 "guid-a",
    ((fu_context_hwinfo_accessor_guards fixCtx).1 rfl).2.1,
    ((fu_context_hwinfo_accessor_guards fixCtx).1 rfl).2.2.1 "BiosVersion",
    ((fu_context_hwinfo_accessor_guards fixCtx).1 rfl).2.2.2.1 "HardwareID-3",
    ((fu_context_hwinfo_accessor_guards fixCtx).1 rfl).2.2.2.2.1 1 2 3,
    ((fu_context_hwinfo_accessor_guards fixCtx).1 rfl).2.2.2.2.2.1 1 2,
    ((fu_context_hwinfo_accessor_guards fixCtx).1 rfl).2.2.2.2.2.2 1 2 3⟩,
   ⟨rfl,
    ((fu_context_hwinfo_accessor_guards fixCtxLoaded).2 rfl).1 "guid-a",
    ((fu_context_hwinfo_accessor_guards fixCtxLoaded).2 rfl).2.2.1 "BiosVersion",
    ((fu_context_hwinfo_accessor_guards fixCtxLoaded).2 rfl).2.2.2.2.2.2 1 2 3⟩⟩

/-- C1 counterexample: a two-candidate set containing one candidate that
fails to mount (so it is excluded from the score table) and one scored
candidate whose score is 0.  The sorted array still contains the failing
candidate with looked-up score 0, the stable sort keeps it in front, and
`fu_context_get_default_esp` returns it — a failing candidate CAN be the
returned volume. -/
theorem fu_context_get_default_esp_returns_failing_candidate :
    1 < ([fixVolMountFail, fixVolZero] : List FuVolume).length ∧
    espSurvives none fixVolMountFail = false ∧
    espSurvives none fixVolZero = true ∧
    fu_context_get_default_esp false none [fixVolMountFail, fixVolZero] =
      .ok fixVolMountFail :=
  ⟨by decide, by decide, by decide, rfl⟩

/-- C1 (amended): in the multi-candidate branch, candidates that fail to
mount, mismatch the user ESP location, or lack a top-level `EFI`/`efi`
directory are excluded from the score table (their looked-up score is 0),
but they remain in the sorted candidate array; whenever at least one
surviving candidate has a strictly positive score, the returned volume is
a surviving candidate (only when every surviving candidate scores 0 can
an earlier-encountered failing candidate be returned). -/
theorem fu_context_get_default_esp_filtered_scoring
    (user_esp_location : Option String) (esp_volumes : List FuVolume)
    (v w : FuVolume)
    (hlen : 1 < esp_volumes.length)
    (hw : w ∈ esp_volumes)
    (hws : espSurvives user_esp_location w = true)
    (hwpos : 0 < espScoreOf w)
    (hres : fu_context_get_default_esp false user_esp_location esp_volumes =
      .ok v) :
    (∀ u, espSurvives user_esp_location u = false →
      espEffectiveScore user_esp_location u = 0) ∧
    v ∈ esp_volumes ∧ espSurvives user_esp_location v = true := by
  refine ⟨fun u hu => by simp [espEffectiveScore, hu], ?_⟩
  unfold fu_context_get_default_esp at hres
  rw [if_neg Bool.false_ne_true] at hres
  rw [if_pos hlen] at hres
  have hwfil : w ∈ esp_volumes.filter (espSurvives user_esp_location) :=
    List.mem_filter.mpr ⟨hw, hws⟩
  have hfil : (esp_volumes.filter (espSurvives user_esp_location)).isEmpty
      = false := by
    cases hfe : esp_volumes.filter (espSurvives user_esp_location) with
    | nil => rw [hfe] at hwfil; cases hwfil
    | cons a t => rfl
  rw [if_neg (by rw [hfil]; exact Bool.false_ne_true)] at hres
  cases hsort : fuSortDesc (espEffectiveScore user_esp_location) esp_volumes with
  | nil =>
    have hl := length_fuSortDesc (espEffectiveScore user_esp_location) esp_volumes
    rw [hsort] at hl
    rw [← hl] at hlen
    exact absurd hlen (by decide)
  | cons v0 rest =>
    rw [hsort] at hres
    simp only [Except.ok.injEq] at hres
    subst hres
    have hv0mem : v0 ∈ esp_volumes := by
      have : v0 ∈ fuSortDesc (espEffectiveScore user_esp_location) esp_volumes := by
        rw [hsort]
        exact List.mem_cons_self v0 rest
      exact (mem_fuSortDesc _ _ _).mp this
    refine ⟨hv0mem, ?_⟩
    have hmax := fuSortDesc_head_max (espEffectiveScore user_esp_location)
      esp_volumes v0 rest hsort w hw
    have hkw : espEffectiveScore user_esp_location w = espScoreOf w := by
      simp [espEffectiveScore, hws]
    rw [hkw] at hmax
    cases hsv : espSurvives user_esp_location v0 with
    | true => rfl
    | false =>
      have hz : espEffectiveScore user_esp_location v0 = 0 := by
        simp [espEffectiveScore, hsv]
      rw [hz] at hmax
      exact absurd (Nat.lt_of_lt_of_le hwpos hmax) (Nat.lt_irrefl 0)

/-- C1 witness: with an unmountable candidate followed by a positively
scored ESP, the amended statement yields that the returned volume (the
20 MiB ESP) is a surviving candidate. -/
theorem fu_context_get_default_esp_filtered_scoring_witness :
    (1 < ([fixVolMountFail, fixVolEsp20] : List FuVolume).length ∧
     fixVolEsp20 ∈ [fixVolMountFail, fixVolEsp20] ∧
     espSurvives none fixVolEsp20 = true ∧
     0 < espScoreOf fixVolEsp20 ∧
     fu_context_get_default_esp false none [fixVolMountFail, fixVolEsp20] =
       .ok fixVolEsp20) ∧
    ((∀ u, espSurvives none u = false → espEffectiveScore none u = 0) ∧
     fixVolEsp20 ∈ [fixVolMountFail, fixVolEsp20] ∧
     espSurvives none fixVolEsp20 = true) :=
  ⟨⟨by decide, by decide, by decide, by decide, rfl⟩,
   fu_context_get_default_esp_filtered_scoring none [fixVolMountFail, fixVolEsp20]
     fixVolEsp20 fixVolEsp20 (by decide) (by decide) (by decide) (by decide) rfl⟩

/-- C2: in the multi-candidate branch each surviving candidate's score is
exactly the spec formula (`espScoreSpec`: size in MiB, +0x20000 for the
ESP kind, +0x10000 for a Linux bootloader file); when every candidate
survives, the returned volume is a candidate of maximal score
(descending sort); the concrete 10/20/15 MiB fixture where only the
15 MiB candidate matches the Linux heuristic returns the 15 MiB one; and
equal scores are broken by encounter order (stable sort). -/
theorem fu_context_get_default_esp_scoring :
    (∀ (user_esp_location : Option String) (esp : FuVolume),
       espSurvives user_esp_location esp = true →
       espScoreOf esp = espScoreSpec esp) ∧
    (∀ (user_esp_location : Option String) (esp_volumes : List FuVolume)
       (v : FuVolume),
       1 < esp_volumes.length →
       (∀ w ∈ esp_volumes, espSurvives user_esp_location w = true) →
       fu_context_get_default_esp false user_esp_location esp_volumes = .ok v →
       v ∈ esp_volumes ∧ ∀ w ∈ esp_volumes, espScoreOf w ≤ espScoreOf v) ∧
    fu_context_get_default_esp false none [fixVolEsp10, fixVolEsp20, fixVolEsp15] =
      .ok fixVolEsp15 ∧
    (espScoreOf fixVolTie1 = espScoreOf fixVolTie2 ∧
     fu_context_get_default_esp false none [fixVolTie1, fixVolTie2] =
       .ok fixVolTie1) := by
  refine ⟨?_, ?_, rfl, rfl, rfl⟩
  · intro user_esp_location esp _hs
    unfold espScoreOf espScoreSpec fu_context_is_esp_linux
    cases hf : esp.fileList with
    | none => rfl
    | some files =>
      simp only [Option.getD_some, ← espLinuxAny_eq]
      cases hcase : files.any espLinuxFileMatch with
      | true => rfl
      | false => rfl
  · intro user_esp_location esp_volumes v hlen hall hres
    unfold fu_context_get_default_esp at hres
    rw [if_neg Bool.false_ne_true] at hres
    rw [if_pos hlen] at hres
    have hfilself : esp_volumes.filter (espSurvives user_esp_location)
        = esp_volumes := List.filter_eq_self.mpr hall
    have hne : esp_volumes ≠ [] := by
      intro hnil
      rw [hnil] at hlen
      exact absurd hlen (by decide)
    have hfil : (esp_volumes.filter (espSurvives user_esp_location)).isEmpty
        = false := by
      rw [hfilself]
      cases esp_volumes with
      | nil => exact absurd rfl hne
      | cons a t => rfl
    rw [if_neg (by rw [hfil]; exact Bool.false_ne_true)] at hres
    cases hsort : fuSortDesc (espEffectiveScore user_esp_location) esp_volumes with
    | nil =>
      have hl := length_fuSortDesc (espEffectiveScore user_esp_location) esp_volumes
      rw [hsort] at hl
      rw [← hl] at hlen
      exact absurd hlen (by decide)
    | cons v0 rest =>
      rw [hsort] at hres
      simp only [Except.ok.injEq] at hres
      subst hres
      have hv0mem : v0 ∈ esp_volumes := by
        have : v0 ∈ fuSortDesc (espEffectiveScore user_esp_location) esp_volumes := by
          rw [hsort]
          exact List.mem_cons_self v0 rest
        exact (mem_fuSortDesc _ _ _).mp this
      refine ⟨hv0mem, fun w hw => ?_⟩
      have hmax := fuSortDesc_head_max (espEffectiveScore user_esp_location)
        esp_volumes v0 rest hsort w hw
      have hkw : espEffectiveScore user_esp_location w = espScoreOf w := by
        simp [espEffectiveScore, hall w hw]
      have hkv : espEffectiveScore user_esp_location v0 = espScoreOf v0 := by
        simp [espEffectiveScore, hall v0 hv0mem]
      rw [hkw, hkv] at hmax
      exact hmax

/-- C2 witness: the score formula and the maximal-score/stable-order
selection evaluated on the 10/20/15 MiB fixture. -/
theorem fu_context_get_default_esp_scoring_witness :
    (espSurvives none fixVolEsp15 = true ∧
     espScoreOf fixVolEsp15 = espScoreSpec fixVolEsp15 ∧
     espScoreOf fixVolEsp15 = 15 + 0x20000 + 0x10000) ∧
    (1 < ([fixVolEsp10, fixVolEsp20, fixVolEsp15] : List FuVolume).length ∧
     fixVolEsp15 ∈ [fixVolEsp10, fixVolEsp20, fixVolEsp15] ∧
     (∀ w ∈ ([fixVolEsp10, fixVolEsp20, fixVolEsp15] : List FuVolume),
        espScoreOf w ≤ espScoreOf fixVolEsp15)) :=
  ⟨⟨by decide,
    fu_context_get_default_esp_scoring.1 none fixVolEsp15 (by decide),
    by decide⟩,
   ⟨by decide,
    (fu_context_get_default_esp_scoring.2.1 none
      [fixVolEsp10, fixVolEsp20, fixVolEsp15] fixVolEsp15 (by decide) (by decide)
      rfl).1,
    (fu_context_get_default_esp_scoring.2.1 none
      [fixVolEsp10, fixVolEsp20, fixVolEsp15] fixVolEsp15 (by decide) (by decide)
      rfl).2⟩⟩

/-- C7: in `fu_context_get_esp_files`, an entry whose processing fails
with a NOT_FOUND or INVALID_FILE error is skipped (keeping files already
collected, including this entry's partial appends) and collection
continues with the remaining entries; any other per-entry failure aborts
the whole collection with that error.  Additionally, inside an entry a
referenced file whose PE load fails with NOT_SUPPORTED or INVALID_FILE is
skipped without failing the entry. -/
theorem fu_context_get_esp_files_entry_error_policy
    (inhibit : Bool) (volumes : List FuVolume)
    (peLoad : String → Except FuError Unit) (shimName grubName : String)
    (flags : FuContextEspFileFlags) (entry : FuEfiLoadOption)
    (rest : List FuEfiLoadOption) (files files1 : List EspFile) (e : FuError)
    (hstep : fu_context_get_esp_files_for_entry inhibit volumes peLoad shimName
      grubName entry files flags = (files1, some e)) :
    ((e.code = .notFound ∨ e.code = .invalidFile) →
      fu_context_get_esp_files_loop inhibit volumes peLoad shimName grubName
        flags (entry :: rest) files =
      fu_context_get_esp_files_loop inhibit volumes peLoad shimName grubName
        flags rest files1) ∧
    (e.code ≠ .notFound → e.code ≠ .invalidFile →
      fu_context_get_esp_files_loop inhibit volumes peLoad shimName grubName
        flags (entry :: rest) files = .error e) ∧
    (∀ (filename : String) (idx : Nat) (fs : List EspFile) (e2 : FuError),
      peLoad filename = .error e2 →
      (e2.code = .notSupported ∨ e2.code = .invalidFile) →
      espStageStep peLoad filename idx fs = (fs, none)) := by
  refine ⟨?_, ?_, ?_⟩
  · intro hc
    conv_lhs => unfold fu_context_get_esp_files_loop
    simp only [hstep]
    rw [if_pos hc]
  · intro h1 h2
    unfold fu_context_get_esp_files_loop
    simp only [hstep]
    rw [if_neg (by rintro (h | h); exacts [h1 h, h2 h])]
  · intro filename idx fs e2 hpe hc
    unfold espStageStep fu_context_esp_load_pe_file
    rw [hpe]
    dsimp only
    rw [if_pos hc]

/-- C7 witness: an entry whose referenced file is absent (NOT_FOUND) is
skipped, an entry whose volume fails to mount aborts the collection with
that mount error, and an invalid-PE load inside an entry is swallowed. -/
theorem fu_context_get_esp_files_entry_error_policy_witness :
    (fu_context_get_esp_files_for_entry false [fixVolDp, fixVolDpMountFail]
        fixPeLoadAbsent "shimx64.efi" "grubx64.efi" fixEntryAbsent []
        fixFlagsFirst =
      ([], some ⟨.notFound, "failed to load /efi/EFI/a.efi: x"⟩) ∧
     fu_context_get_esp_files_loop false [fixVolDp, fixVolDpMountFail]
        fixPeLoadAbsent "shimx64.efi" "grubx64.efi" fixFlagsFirst
        [fixEntryAbsent] [] =
      fu_context_get_esp_files_loop false [fixVolDp, fixVolDpMountFail]
        fixPeLoadAbsent "shimx64.efi" "grubx64.efi" fixFlagsFirst [] []) ∧
    (fu_context_get_esp_files_for_entry false [fixVolDp, fixVolDpMountFail]
        fixPeLoadAbsent "shimx64.efi" "grubx64.efi" fixEntryMountFail []
        fixFlagsFirst =
      ([], some ⟨.io, "mount failed"⟩) ∧
     fu_context_get_esp_files_loop false [fixVolDp, fixVolDpMountFail]
        fixPeLoadAbsent "shimx64.efi" "grubx64.efi" fixFlagsFirst
        [fixEntryMountFail] [] = .error ⟨.io, "mount failed"⟩) ∧
    espStageStep fixPeLoadInvalid "/efi/EFI/a.efi" 1 [] = ([], none) :=
  ⟨⟨rfl,
    (fu_context_get_esp_files_entry_error_policy false
      [fixVolDp, fixVolDpMountFail] fixPeLoadAbsent "shimx64.efi" "grubx64.efi"
      fixFlagsFirst fixEntryAbsent [] [] []
      ⟨.notFound, "failed to load /efi/EFI/a.efi: x"⟩ rfl).1 (Or.inl rfl)⟩,
   ⟨rfl,
    (fu_context_get_esp_files_entry_error_policy false
      [fixVolDp, fixVolDpMountFail] fixPeLoadAbsent "shimx64.efi" "grubx64.efi"
      fixFlagsFirst fixEntryMountFail [] [] []
      ⟨.io, "mount failed"⟩ rfl).2.1 (by decide) (by decide)⟩,
   (fu_context_get_esp_files_entry_error_policy false
     [fixVolDp, fixVolDpMountFail] fixPeLoadInvalid "shimx64.efi" "grubx64.efi"
     fixFlagsFirst fixEntryMountFail [] [] []
     ⟨.io, "mount failed"⟩ rfl).2.2
     "/efi/EFI/a.efi" 1 [] ⟨.invalidFile, "y"⟩ rfl (Or.inr rfl)⟩

/-- C9 counterexample: after registering plugin "z" then "a" for `block`
and "m" for `block:partition`, the stored `block` list is already sorted
at write time (["a", "z"], not the append order ["z", "a"]), while the
read path returns the unsorted concatenation ["a", "z", "m"]. -/
theorem fu_context_udev_plugin_names_unsorted_read :
    udevLookup fixUdevRegistry "block" = some ["a", "z"] ∧
    fu_context_get_plugin_names_for_udev_subsystem fixUdevRegistry
      "block:partition" = .ok ["a", "z", "m"] ∧
    listIsSortedAsc ["a", "z", "m"] = false :=
  ⟨rfl, rfl, by decide⟩

/-- C9 (amended): `fu_context_add_udev_subsystem` sorts the
per-subsystem list at write time (after appending a genuinely new
plugin name the stored list is the sorted append), and
`fu_context_get_plugin_names_for_udev_subsystem` performs no sorting at
read time: it returns the base-subsystem list followed by the exact-match
list as stored. -/
theorem fu_context_udev_subsystem_sort_on_write :
    (∀ (m : List (String × List String)) (subsystem p : String)
       (names : List String),
       splitOnceChar ':' subsystem.data = none →
       udevLookup m subsystem = some names →
       names.contains p = false →
       udevLookup (fu_context_add_udev_subsystem m subsystem (some p))
         subsystem = some (sortStringsAsc (names ++ [p]))) ∧
    (∀ (m : List (String × List String)) (subsystem : String)
       (pre post : List Char) (base exact : List String),
       splitOnceChar ':' subsystem.data = some (pre, post) →
       udevLookup m (⟨pre⟩ : String) = some base →
       udevLookup m subsystem = some exact →
       (base ++ exact).isEmpty = false →
       fu_context_get_plugin_names_for_udev_subsystem m subsystem =
         .ok (base ++ exact)) := by
  constructor
  · intro m subsystem p names hnc hlook hnew
    unfold fu_context_add_udev_subsystem
    simp only [hnc]
    unfold udevAddOne
    simp only [hlook, hnew, Bool.false_eq_true, if_false]
    exact udevLookup_udevStore m subsystem names _ hlook
  · intro m subsystem pre post base exact hsp hb he hne
    unfold fu_context_get_plugin_names_for_udev_subsystem
    simp only [hsp, hb, he, Option.getD_some]
    rw [if_neg (by rw [hne]; exact Bool.false_ne_true)]

/-- C9 witness: write-time sorting on a concrete registry and the
unsorted concatenating read on `fixUdevRegistry`. -/
theorem fu_context_udev_subsystem_sort_on_write_witness :
    (udevLookup (fu_context_add_udev_subsystem [("block", ["z"])] "block"
        (some "a")) "block" = some (sortStringsAsc (["z"] ++ ["a"])) ∧
     sortStringsAsc (["z"] ++ ["a"]) = ["a", "z"]) ∧
    fu_context_get_plugin_names_for_udev_subsystem fixUdevRegistry
      "block:partition" = .ok (["a", "z"] ++ ["m"]) :=
  ⟨⟨fu_context_udev_subsystem_sort_on_write.1 [("block", ["z"])] "block" "a"
      ["z"] rfl rfl rfl,
    by decide⟩,
   fu_context_udev_subsystem_sort_on_write.2 fixUdevRegistry "block:partition"
     "block".data "partition".data ["a", "z"] ["m"] rfl rfl rfl rfl⟩

end Fwupd
